import Mathlib

/-!
Verification of the orchestration and scoring core of the financial-analysis
multi-agent system (`src/main.py`).  The Python functions are shallowly
embedded: monetary amounts and scores become rationals (`ℚ`), Python dicts
become association lists over a `PyVal` value type, fallible calls become
`Except`, and the workflow controller becomes a fold over per-stage outcomes.
-/

namespace FinMAS

/-- Python values, as far as the orchestrator inspects them: strings, numbers,
booleans, lists and (string-keyed) dicts.  Key order is the insertion order of
the source. -/
inductive PyVal where
  | str (s : String)
  | num (q : ℚ)
  | boolean (b : Bool)
  | list (xs : List PyVal)
  | dict (entries : List (String × PyVal))

/-- `k in value` for a dict value; `False` on non-dicts (mirrors the
`isinstance(value, dict)` guard in the source). -/
def pvHasKey (v : PyVal) (k : String) : Bool :=
  match v with
  | .dict es => es.any (fun kv => kv.1 == k)
  | _ => false

/-- `value[k]` lookup on a dict, `none` otherwise. -/
def pvGet (v : PyVal) (k : String) : Option PyVal :=
  match v with
  | .dict es => (es.find? (fun kv => kv.1 == k)).map (fun kv => kv.2)
  | _ => none

/-- Whether a value is a dict (`isinstance(value, dict)`). -/
def pvIsDict (v : PyVal) : Bool :=
  match v with
  | .dict _ => true
  | _ => false

/-- String rendering of `value[k]` when it is a string (the only case the
source interpolates); empty string otherwise. -/
def pvGetStr (v : PyVal) (k : String) : String :=
  match pvGet v k with
  | some (.str s) => s
  | _ => ""

/-! ## Risk Scoring Engine (`_assess_risks`, src/main.py lines 482–588) -/

/-- The signals `_assess_risks` extracts from the prior stages' results:
compliance status string, violation/warning counts (`len(...)` of the lists),
the two ratios read from the financial-analysis result, and the market
sentiment string. -/
structure RiskInput where
  compliance_status : String
  violations : Nat
  warnings : Nat
  net_margin : ℚ
  debt_to_equity : ℚ
  sentiment : String

/-- The additive risk score before clamping, exactly as accumulated in
`_assess_risks`: base 5, +2 when non-compliant, +1.5 per violation, +0.5 per
warning, ±1 on net margin, ±2/−1 on leverage, ±1 on sentiment. -/
def riskScoreRaw (i : RiskInput) : ℚ :=
  let s0 : ℚ := 5
  let s1 := if i.compliance_status ≠ "compliant" then s0 + 2 else s0
  let s2 := s1 + (i.violations : ℚ) * (3 / 2)
  let s3 := s2 + (i.warnings : ℚ) * (1 / 2)
  let s4 := if i.net_margin < 1 / 10 then s3 + 1
            else if i.net_margin > 3 / 10 then s3 - 1 else s3
  let s5 := if i.debt_to_equity > 2 then s4 + 2
            else if i.debt_to_equity < 1 / 2 then s4 - 1 else s4
  if i.sentiment = "bearish" then s5 + 1
  else if i.sentiment = "bullish" then s5 - 1 else s5

/-- `risk_score = max(1, min(10, risk_score))` — the clamped score. -/
def riskScore (i : RiskInput) : ℚ :=
  max 1 (min 10 (riskScoreRaw i))

/-- The LOW/MEDIUM/HIGH mapping applied to the clamped score. -/
def riskLevel (score : ℚ) : String :=
  if score ≥ 7 then "HIGH"
  else if score ≥ 4 then "MEDIUM"
  else "LOW"

theorem riskScoreRaw_eq (i : RiskInput) :
    riskScoreRaw i =
      (if i.compliance_status ≠ "compliant" then (7 : ℚ) else 5)
      + (if i.net_margin < 1 / 10 then (1 : ℚ)
         else if i.net_margin > 3 / 10 then -1 else 0)
      + (if i.debt_to_equity > 2 then (2 : ℚ)
         else if i.debt_to_equity < 1 / 2 then -1 else 0)
      + (if i.sentiment = "bearish" then (1 : ℚ)
         else if i.sentiment = "bullish" then -1 else 0)
      + (i.violations : ℚ) * (3 / 2) + (i.warnings : ℚ) * (1 / 2) := by
  unfold riskScoreRaw
  split_ifs <;> ring

theorem riskScore_le_riskScore (i j : RiskInput)
    (h : riskScoreRaw i ≤ riskScoreRaw j) : riskScore i ≤ riskScore j := by
  unfold riskScore
  exact max_le_max le_rfl (min_le_min le_rfl h)

/-- C2: the clamped risk score always lies in [1, 10], and the level mapping is
exact at the boundaries: clamped score ≥ 7 (including exactly 7) is HIGH,
score in [4, 7) (including exactly 4) is MEDIUM, and score < 4 is LOW. -/
theorem risk_score_clamped_and_level_boundaries (i : RiskInput) :
    1 ≤ riskScore i ∧ riskScore i ≤ 10 ∧
    (7 ≤ riskScore i → riskLevel (riskScore i) = "HIGH") ∧
    (4 ≤ riskScore i → riskScore i < 7 → riskLevel (riskScore i) = "MEDIUM") ∧
    (riskScore i < 4 → riskLevel (riskScore i) = "LOW") := by
  refine ⟨le_max_left 1 _, ?_, ?_, ?_, ?_⟩
  · exact max_le (by norm_num) (min_le_left 10 _)
  · intro h
    unfold riskLevel
    rw [if_pos h]
  · intro h4 h7
    unfold riskLevel
    rw [if_neg (by exact not_le.mpr h7), if_pos h4]
  · intro h4
    unfold riskLevel
    rw [if_neg (by exact not_le.mpr (lt_of_lt_of_le h4 (by norm_num))),
        if_neg (by exact not_le.mpr h4)]

/-- An input reaching a clamped score of exactly 7 (compliant, 4 warnings). -/
def riskInputHigh : RiskInput :=
  ⟨"compliant", 0, 4, 1 / 5, 1, "neutral"⟩

/-- An input reaching a clamped score of exactly 4 (compliant, bullish). -/
def riskInputMedium : RiskInput :=
  ⟨"compliant", 0, 0, 1 / 5, 1, "bullish"⟩

/-- An input reaching a clamped score of 2 (< 4). -/
def riskInputLow : RiskInput :=
  ⟨"compliant", 0, 0, 2 / 5, 1 / 4, "bullish"⟩

theorem riskScore_high_eval : riskScore riskInputHigh = 7 := by
  have h : riskScoreRaw riskInputHigh = 7 := by
    simp [riskScoreRaw, riskInputHigh]
    norm_num
  rw [riskScore, h]
  norm_num [min_def, max_def]

theorem riskScore_medium_eval : riskScore riskInputMedium = 4 := by
  have h : riskScoreRaw riskInputMedium = 4 := by
    simp [riskScoreRaw, riskInputMedium]
    norm_num
  rw [riskScore, h]
  norm_num [min_def, max_def]

theorem riskScore_low_eval : riskScore riskInputLow = 2 := by
  have h : riskScoreRaw riskInputLow = 2 := by
    simp [riskScoreRaw, riskInputLow]
    norm_num
  rw [riskScore, h]
  norm_num [min_def, max_def]

theorem risk_score_clamped_and_level_boundaries_witness :
    (1 ≤ riskScore riskInputHigh ∧ riskScore riskInputHigh ≤ 10 ∧
      riskLevel (riskScore riskInputHigh) = "HIGH") ∧
    riskLevel (riskScore riskInputMedium) = "MEDIUM" ∧
    riskLevel (riskScore riskInputLow) = "LOW" := by
  refine ⟨⟨(risk_score_clamped_and_level_boundaries riskInputHigh).1,
           (risk_score_clamped_and_level_boundaries riskInputHigh).2.1,
           (risk_score_clamped_and_level_boundaries riskInputHigh).2.2.1
             (by norm_num [riskScore_high_eval])⟩,
    (risk_score_clamped_and_level_boundaries riskInputMedium).2.2.2.1
      (by norm_num [riskScore_medium_eval]) (by norm_num [riskScore_medium_eval]),
    (risk_score_clamped_and_level_boundaries riskInputLow).2.2.2.2
      (by norm_num [riskScore_low_eval])⟩

/-- The concrete input of C3: non-compliant, 1 violation, 2 warnings, net
margin 0.05, debt-to-equity 2.5, bearish sentiment. -/
def riskInputExample : RiskInput :=
  ⟨"non_compliant", 1, 2, 1 / 20, 5 / 2, "bearish"⟩

theorem riskScoreRaw_example_eval : riskScoreRaw riskInputExample = 27 / 2 := by
  simp [riskScoreRaw, riskInputExample]
  norm_num

theorem riskScore_example_eval : riskScore riskInputExample = 10 := by
  rw [riskScore, riskScoreRaw_example_eval]
  norm_num [min_def, max_def]

/-- C3: on the example input the unclamped sum is
5 + 2 + 1.5 + 1.0 + 1.0 + 2.0 + 1.0 = 13.5, the clamped score is 10, and the
level is HIGH. -/
theorem risk_score_example_clamps_to_ten :
    riskScoreRaw riskInputExample = 27 / 2 ∧
    riskScore riskInputExample = 10 ∧
    riskLevel (riskScore riskInputExample) = "HIGH" := by
  refine ⟨riskScoreRaw_example_eval, riskScore_example_eval, ?_⟩
  rw [riskScore_example_eval]
  norm_num [riskLevel]

/-- C6: the clamped risk score is monotonically non-decreasing in the
violation count and in the warning count, all other factors held fixed. -/
theorem risk_score_monotone_in_violations_warnings (i : RiskInput)
    (v1 v2 w1 w2 : Nat) (hv : v1 ≤ v2) (hw : w1 ≤ w2) :
    riskScore { i with violations := v1 } ≤ riskScore { i with violations := v2 } ∧
    riskScore { i with warnings := w1 } ≤ riskScore { i with warnings := w2 } := by
  constructor
  · apply riskScore_le_riskScore
    rw [riskScoreRaw_eq, riskScoreRaw_eq]
    simp only
    have : (v1 : ℚ) ≤ (v2 : ℚ) := by exact_mod_cast hv
    nlinarith
  · apply riskScore_le_riskScore
    rw [riskScoreRaw_eq, riskScoreRaw_eq]
    simp only
    have : (w1 : ℚ) ≤ (w2 : ℚ) := by exact_mod_cast hw
    nlinarith

theorem risk_score_monotone_in_violations_warnings_witness :
    riskScore { riskInputExample with violations := 1 } ≤
      riskScore { riskInputExample with violations := 2 } ∧
    riskScore { riskInputExample with warnings := 0 } ≤
      riskScore { riskInputExample with warnings := 3 } :=
  risk_score_monotone_in_violations_warnings riskInputExample 1 2 0 3
    (by norm_num) (by norm_num)

/-! ## Ratio Calculator (`_analyze_financials`, src/main.py lines 300–331) -/

/-- Python's `round` on an exact rational: round half to even. -/
def pyRound (q : ℚ) : ℤ :=
  let f := ⌊q⌋
  let r := q - (f : ℚ)
  if r < 1 / 2 then f
  else if 1 / 2 < r then f + 1
  else if f % 2 = 0 then f else f + 1

/-- Python's `round(q, places)`. -/
def pyRoundTo (places : Nat) (q : ℚ) : ℚ :=
  (pyRound (q * 10 ^ places) : ℚ) / 10 ^ places

theorem pyRound_eq_floor (q : ℚ) (f : ℤ) (h1 : ⌊q⌋ = f) (h2 : q - f < 1 / 2) :
    pyRound q = f := by
  unfold pyRound
  rw [h1, if_pos h2]

theorem pyRound_eq_floor_add_one (q : ℚ) (f : ℤ) (h1 : ⌊q⌋ = f)
    (h2 : 1 / 2 < q - f) : pyRound q = f + 1 := by
  unfold pyRound
  rw [h1, if_neg (not_lt.mpr (le_of_lt h2)), if_pos h2]

theorem pyRoundTo_zero (places : Nat) : pyRoundTo places 0 = 0 := by
  have h : pyRound 0 = 0 := pyRound_eq_floor 0 0 (by norm_num) (by norm_num)
  unfold pyRoundTo
  rw [zero_mul, h]
  norm_num

/-- The income-statement figures `_analyze_financials` reads
(`income.get('revenue', 0)`, `income.get('net_income', 0)`); a missing key is
`none` and defaults to 0. -/
structure IncomeData where
  revenue : Option ℚ
  net_income : Option ℚ

/-- The balance-sheet figures `_analyze_financials` reads; a missing key is
`none` and defaults to 0. -/
structure BalanceData where
  assets : Option ℚ
  liabilities : Option ℚ
  equity : Option ℚ
  cash : Option ℚ
  receivables : Option ℚ

/-- The five ratios returned by `_analyze_financials`, after rounding (3
decimal places for the profitability/return ratios, 2 for liquidity and
leverage). -/
structure RatioSet where
  net_margin : ℚ
  return_on_assets : ℚ
  return_on_equity : ℚ
  current_ratio : ℚ
  debt_to_equity : ℚ

/-- The ratio block of `_analyze_financials`: every ratio is the quotient when
its denominator is positive and `0` otherwise, then rounded as in the
`result` dict. -/
def computeRatios (income : IncomeData) (balance : BalanceData) : RatioSet :=
  let revenue := income.revenue.getD 0
  let net_income := income.net_income.getD 0
  let assets := balance.assets.getD 0
  let liabilities := balance.liabilities.getD 0
  let equity := balance.equity.getD 0
  let net_margin := if revenue > 0 then net_income / revenue else 0
  let debt_to_equity := if equity > 0 then liabilities / equity else 0
  let roa := if assets > 0 then net_income / assets else 0
  let roe := if equity > 0 then net_income / equity else 0
  let current_ratio :=
    if liabilities > 0 then
      (balance.cash.getD 0 + balance.receivables.getD 0) / liabilities
    else 0
  { net_margin := pyRoundTo 3 net_margin,
    return_on_assets := pyRoundTo 3 roa,
    return_on_equity := pyRoundTo 3 roe,
    current_ratio := pyRoundTo 2 current_ratio,
    debt_to_equity := pyRoundTo 2 debt_to_equity }

/-- The spec's data model for ratios: each ratio is `none` (undefined) when
its denominator is zero or missing. -/
structure RatioSetSpec where
  net_margin : Option ℚ
  return_on_assets : Option ℚ
  return_on_equity : Option ℚ
  current_ratio : Option ℚ
  debt_to_equity : Option ℚ

/-- Modelled from the spec: "Each ratio is `None`/undefined if its denominator
is zero or missing, never a crash" — the documented default is `none`, not a
numeric zero.  This follows the spec's words, for comparison with
`computeRatios`, which is translated from the source. -/
def computeRatiosSpec (income : IncomeData) (balance : BalanceData) :
    RatioSetSpec :=
  let net_income := income.net_income.getD 0
  let quotient := fun (numer : ℚ) (denom : Option ℚ) =>
    match denom with
    | none => none
    | some d => if d > 0 then some (numer / d) else none
  { net_margin := (quotient net_income income.revenue).map (pyRoundTo 3),
    return_on_assets := (quotient net_income balance.assets).map (pyRoundTo 3),
    return_on_equity := (quotient net_income balance.equity).map (pyRoundTo 3),
    current_ratio :=
      ((quotient (balance.cash.getD 0 + balance.receivables.getD 0)
        balance.liabilities).map (pyRoundTo 2)),
    debt_to_equity :=
      ((quotient (balance.liabilities.getD 0) balance.equity).map
        (pyRoundTo 2)) }

/-- A statement set whose revenue is exactly zero (all other figures
positive). -/
def zeroRevenueIncome : IncomeData := ⟨some 0, some 100⟩

/-- A balance sheet with positive denominators. -/
def zeroRevenueBalance : BalanceData :=
  ⟨some 100, some 50, some 50, some 10, some 10⟩

/-- C4 counterexample: with revenue exactly zero, the spec's data model makes
net margin undefined (`none`), but the code returns the plain number `0` — the
code does not produce the documented `None` default. -/
theorem ratio_zero_denominator_not_none :
    (computeRatiosSpec zeroRevenueIncome zeroRevenueBalance).net_margin = none ∧
    (computeRatios zeroRevenueIncome zeroRevenueBalance).net_margin = 0 ∧
    some ((computeRatios zeroRevenueIncome zeroRevenueBalance).net_margin) ≠
      (computeRatiosSpec zeroRevenueIncome zeroRevenueBalance).net_margin := by
  refine ⟨by simp [computeRatiosSpec, zeroRevenueIncome], ?_, ?_⟩
  · simp [computeRatios, zeroRevenueIncome, zeroRevenueBalance, pyRoundTo_zero]
  · simp [computeRatios, computeRatiosSpec, zeroRevenueIncome,
      zeroRevenueBalance]

/-- C4 amended: for every statement input in which a ratio's denominator
(revenue, equity, assets, or liabilities) is zero or missing, the ratio
calculation does not raise — it is total — and the affected ratio is the
code's neutral default `0` (not `None`: the returned ratios are plain
numbers). -/
theorem ratio_zero_denominator_defaults_to_zero (income : IncomeData)
    (balance : BalanceData) :
    ((income.revenue = some 0 ∨ income.revenue = none) →
      (computeRatios income balance).net_margin = 0) ∧
    ((balance.equity = some 0 ∨ balance.equity = none) →
      (computeRatios income balance).debt_to_equity = 0 ∧
      (computeRatios income balance).return_on_equity = 0) ∧
    ((balance.assets = some 0 ∨ balance.assets = none) →
      (computeRatios income balance).return_on_assets = 0) ∧
    ((balance.liabilities = some 0 ∨ balance.liabilities = none) →
      (computeRatios income balance).current_ratio = 0) := by
  refine ⟨?_, ?_, ?_, ?_⟩
  · rintro (h | h) <;>
      simp [computeRatios, h, pyRoundTo_zero]
  · rintro (h | h) <;>
      constructor <;>
      simp [computeRatios, h, pyRoundTo_zero]
  · rintro (h | h) <;>
      simp [computeRatios, h, pyRoundTo_zero]
  · rintro (h | h) <;>
      simp [computeRatios, h, pyRoundTo_zero]

/-- All-zero statements: every denominator is zero. -/
def allZeroIncome : IncomeData := ⟨some 0, some 0⟩

/-- All-zero balance sheet. -/
def allZeroBalance : BalanceData := ⟨some 0, some 0, some 0, some 0, some 0⟩

theorem ratio_zero_denominator_defaults_to_zero_witness :
    (computeRatios allZeroIncome allZeroBalance).net_margin = 0 ∧
    (computeRatios allZeroIncome allZeroBalance).debt_to_equity = 0 ∧
    (computeRatios allZeroIncome allZeroBalance).return_on_equity = 0 ∧
    (computeRatios allZeroIncome allZeroBalance).return_on_assets = 0 ∧
    (computeRatios allZeroIncome allZeroBalance).current_ratio = 0 := by
  have h := ratio_zero_denominator_defaults_to_zero allZeroIncome allZeroBalance
  exact ⟨h.1 (Or.inl rfl), (h.2.1 (Or.inl rfl)).1, (h.2.1 (Or.inl rfl)).2,
    h.2.2.1 (Or.inl rfl), h.2.2.2 (Or.inl rfl)⟩

/-- The income statement of the C7 example (also the mock extraction data). -/
def exampleIncome : IncomeData := ⟨some 10500000, some 2600000⟩

/-- The balance sheet of the C7 example (also the mock extraction data). -/
def exampleBalance : BalanceData :=
  ⟨some 15200000, some 7000000, some 8200000, some 2500000, some 1800000⟩

theorem computeRatios_example_eval :
    computeRatios exampleIncome exampleBalance =
      ⟨248 / 1000, 171 / 1000, 317 / 1000, 61 / 100, 85 / 100⟩ := by
  have h1 : pyRound ((5200 : ℚ) / 21) = 248 :=
    pyRound_eq_floor_add_one _ 247 (by norm_num [Int.floor_eq_iff])
      (by norm_num)
  have h2 : pyRound ((3250 : ℚ) / 19) = 171 :=
    pyRound_eq_floor _ 171 (by norm_num [Int.floor_eq_iff]) (by norm_num)
  have h3 : pyRound ((13000 : ℚ) / 41) = 317 :=
    pyRound_eq_floor _ 317 (by norm_num [Int.floor_eq_iff]) (by norm_num)
  have h4 : pyRound ((430 : ℚ) / 7) = 61 :=
    pyRound_eq_floor _ 61 (by norm_num [Int.floor_eq_iff]) (by norm_num)
  have h5 : pyRound ((3500 : ℚ) / 41) = 85 :=
    pyRound_eq_floor _ 85 (by norm_num [Int.floor_eq_iff]) (by norm_num)
  simp only [computeRatios, exampleIncome, exampleBalance, Option.getD,
    pyRoundTo]
  norm_num [h1, h2, h3, h4, h5]

/-- C7: on the example statements the code returns net_margin 0.248,
roa 0.171, roe 0.317, debt_to_equity 0.85 and current_ratio 0.61; each is
within the documented rounding precision (half of 10^-3 for the
profitability/return ratios, half of 10^-2 for liquidity/leverage) of its
algebraic definition, and hence of the quoted approximate values 0.248, 0.171,
0.317, 0.854 and 0.614. -/
theorem ratio_example_values :
    (computeRatios exampleIncome exampleBalance).net_margin = 248 / 1000 ∧
    (computeRatios exampleIncome exampleBalance).return_on_assets =
      171 / 1000 ∧
    (computeRatios exampleIncome exampleBalance).return_on_equity =
      317 / 1000 ∧
    (computeRatios exampleIncome exampleBalance).debt_to_equity = 85 / 100 ∧
    (computeRatios exampleIncome exampleBalance).current_ratio = 61 / 100 ∧
    |(computeRatios exampleIncome exampleBalance).net_margin -
      2600000 / 10500000| ≤ 1 / 2000 ∧
    |(computeRatios exampleIncome exampleBalance).return_on_assets -
      2600000 / 15200000| ≤ 1 / 2000 ∧
    |(computeRatios exampleIncome exampleBalance).return_on_equity -
      2600000 / 8200000| ≤ 1 / 2000 ∧
    |(computeRatios exampleIncome exampleBalance).debt_to_equity -
      7000000 / 8200000| ≤ 1 / 200 ∧
    |(computeRatios exampleIncome exampleBalance).current_ratio -
      (2500000 + 1800000) / 7000000| ≤ 1 / 200 ∧
    |(computeRatios exampleIncome exampleBalance).net_margin - 248 / 1000| ≤
      1 / 2000 ∧
    |(computeRatios exampleIncome exampleBalance).return_on_assets -
      171 / 1000| ≤ 1 / 2000 ∧
    |(computeRatios exampleIncome exampleBalance).return_on_equity -
      317 / 1000| ≤ 1 / 2000 ∧
    |(computeRatios exampleIncome exampleBalance).debt_to_equity -
      854 / 1000| ≤ 1 / 200 ∧
    |(computeRatios exampleIncome exampleBalance).current_ratio -
      614 / 1000| ≤ 1 / 200 := by
  rw [computeRatios_example_eval]
  norm_num [abs_le]

/-! ## Quality Confidence Engine (`_quality_check`, src/main.py lines 675–740) -/

/-- The result record of `_quality_check`: `passed` is `len(issues) == 0`,
`issues` the accumulated messages, `confidence_score` the floored score. -/
structure QCResult where
  passed : Bool
  issues : List String
  confidence_score : ℚ

/-- The issue messages one loop iteration of `_quality_check` appends for a
single `(key, value)` item, in source order: the embedded `'error'` marker,
then the risk-stage missing-field check, then the compliance-stage
missing-field check.  Non-dict values are skipped (`isinstance(value, dict)`). -/
def entryIssues (kv : String × PyVal) : List String :=
  match kv.2 with
  | .dict _ =>
    (if pvHasKey kv.2 "error" then
      ["Error in " ++ kv.1 ++ ": " ++ pvGetStr kv.2 "error"] else []) ++
    (if kv.1 == "risk" && !(pvHasKey kv.2 "risk_score") then
      ["Missing risk score"] else []) ++
    (if kv.1 == "compliance" && !(pvHasKey kv.2 "compliance_status") then
      ["Missing compliance status"] else [])
  | _ => []

/-- The confidence deduction the same iteration applies: 0.10 for an embedded
error, 0.05 for each of the two missing critical fields. -/
def entryDeduction (kv : String × PyVal) : ℚ :=
  match kv.2 with
  | .dict _ =>
    (if pvHasKey kv.2 "error" then (1 : ℚ) / 10 else 0) +
    (if kv.1 == "risk" && !(pvHasKey kv.2 "risk_score") then (1 : ℚ) / 20
     else 0) +
    (if kv.1 == "compliance" && !(pvHasKey kv.2 "compliance_status") then
      (1 : ℚ) / 20 else 0)
  | _ => 0

/-- The `for key, value in all_outputs.items()` loop of `_quality_check`,
threading the issue list and the running confidence. -/
def qcScan : List (String × PyVal) → List String → ℚ → List String × ℚ
  | [], issues, conf => (issues, conf)
  | kv :: rest, issues, conf =>
      qcScan rest (issues ++ entryIssues kv) (conf - entryDeduction kv)

/-- `_quality_check`: scan all stage results starting from confidence 0.95,
then floor the confidence at 0.5 and set `passed` iff no issues. -/
def qualityCheck (outputs : List (String × PyVal)) : QCResult :=
  let scanned := qcScan outputs [] (19 / 20)
  { passed := scanned.1.length == 0,
    issues := scanned.1,
    confidence_score := max scanned.2 (1 / 2) }

/-- Number of stage results that are dicts containing an `'error'` key. -/
def errCount (outputs : List (String × PyVal)) : Nat :=
  (outputs.filter (fun kv => pvIsDict kv.2 && pvHasKey kv.2 "error")).length

/-- Number of `'risk'` entries that are dicts missing `'risk_score'`. -/
def missRiskCount (outputs : List (String × PyVal)) : Nat :=
  (outputs.filter (fun kv =>
    kv.1 == "risk" && (pvIsDict kv.2 && !(pvHasKey kv.2 "risk_score")))).length

/-- Number of `'compliance'` entries that are dicts missing
`'compliance_status'`. -/
def missCompCount (outputs : List (String × PyVal)) : Nat :=
  (outputs.filter (fun kv =>
    kv.1 == "compliance" &&
      (pvIsDict kv.2 && !(pvHasKey kv.2 "compliance_status")))).length

/-- Concatenation of all per-entry issue messages, in scan order. -/
def issuesOf : List (String × PyVal) → List String
  | [] => []
  | kv :: rest => entryIssues kv ++ issuesOf rest

/-- Sum of all per-entry deductions. -/
def totalDeduction : List (String × PyVal) → ℚ
  | [] => 0
  | kv :: rest => entryDeduction kv + totalDeduction rest

theorem qcScan_eq (outputs : List (String × PyVal)) :
    ∀ issues conf, qcScan outputs issues conf =
      (issues ++ issuesOf outputs, conf - totalDeduction outputs) := by
  induction outputs with
  | nil => intro issues conf; simp [qcScan, issuesOf, totalDeduction]
  | cons kv rest ih =>
    intro issues conf
    show qcScan rest (issues ++ entryIssues kv) (conf - entryDeduction kv) = _
    rw [ih]
    simp only [issuesOf, totalDeduction, List.append_assoc, Prod.mk.injEq]
    exact ⟨trivial, by ring⟩

theorem errCount_cons (kv : String × PyVal) (rest : List (String × PyVal)) :
    errCount (kv :: rest) =
      (if pvIsDict kv.2 && pvHasKey kv.2 "error" then 1 else 0) +
        errCount rest := by
  unfold errCount
  rw [List.filter_cons]
  split <;> simp [Nat.add_comm]

theorem missRiskCount_cons (kv : String × PyVal)
    (rest : List (String × PyVal)) :
    missRiskCount (kv :: rest) =
      (if kv.1 == "risk" && (pvIsDict kv.2 && !(pvHasKey kv.2 "risk_score"))
        then 1 else 0) + missRiskCount rest := by
  unfold missRiskCount
  rw [List.filter_cons]
  split <;> simp [Nat.add_comm]

theorem missCompCount_cons (kv : String × PyVal)
    (rest : List (String × PyVal)) :
    missCompCount (kv :: rest) =
      (if kv.1 == "compliance" &&
          (pvIsDict kv.2 && !(pvHasKey kv.2 "compliance_status"))
        then 1 else 0) + missCompCount rest := by
  unfold missCompCount
  rw [List.filter_cons]
  split <;> simp [Nat.add_comm]

theorem totalDeduction_eq (outputs : List (String × PyVal)) :
    totalDeduction outputs =
      (errCount outputs : ℚ) / 10 + (missRiskCount outputs : ℚ) / 20 +
        (missCompCount outputs : ℚ) / 20 := by
  induction outputs with
  | nil => simp [totalDeduction, errCount, missRiskCount, missCompCount]
  | cons kv rest ih =>
    obtain ⟨k, v⟩ := kv
    rw [totalDeduction, ih, errCount_cons, missRiskCount_cons,
      missCompCount_cons]
    cases v <;>
      simp only [entryDeduction, pvIsDict, Bool.false_and, Bool.and_false,
        Bool.true_and, Bool.and_true, if_false, Bool.false_eq_true,
        Nat.cast_add] <;>
      (try split_ifs) <;>
      push_cast <;>
      ring

theorem issuesOf_length (outputs : List (String × PyVal)) :
    (issuesOf outputs).length =
      errCount outputs + missRiskCount outputs + missCompCount outputs := by
  induction outputs with
  | nil => simp [issuesOf, errCount, missRiskCount, missCompCount]
  | cons kv rest ih =>
    obtain ⟨k, v⟩ := kv
    rw [issuesOf, List.length_append, ih, errCount_cons, missRiskCount_cons,
      missCompCount_cons]
    cases v <;>
      simp only [entryIssues, pvIsDict, Bool.false_and, Bool.and_false,
        Bool.true_and, Bool.and_true, if_false, List.length_append,
        List.length_nil] <;>
      (try split_ifs) <;>
      first
      | contradiction
      | simp_arith

theorem qualityCheck_issues (outputs : List (String × PyVal)) :
    (qualityCheck outputs).issues = issuesOf outputs := by
  unfold qualityCheck
  rw [qcScan_eq]
  simp

theorem qualityCheck_confidence (outputs : List (String × PyVal)) :
    (qualityCheck outputs).confidence_score =
      max (19 / 20 - ((errCount outputs : ℚ) / 10 +
        (missRiskCount outputs : ℚ) / 20 + (missCompCount outputs : ℚ) / 20))
        (1 / 2) := by
  unfold qualityCheck
  rw [qcScan_eq]
  simp [totalDeduction_eq]

theorem qualityCheck_passed_iff (outputs : List (String × PyVal)) :
    (qualityCheck outputs).passed = true ↔
      (qualityCheck outputs).issues = [] := by
  unfold qualityCheck
  rw [qcScan_eq]
  simp [List.length_eq_zero]

/-- Under distinct stage keys, at most one entry can satisfy a predicate that
forces a fixed key. -/
theorem filter_key_length_le_one (outputs : List (String × PyVal)) (k : String)
    (p : String × PyVal → Bool) (hp : ∀ kv, p kv = true → kv.1 = k)
    (h : (outputs.map Prod.fst).Nodup) : (outputs.filter p).length ≤ 1 := by
  induction outputs with
  | nil => simp
  | cons kv rest ih =>
    rw [List.map_cons, List.nodup_cons] at h
    rw [List.filter_cons]
    split
    · rename_i hpkv
      have hk : kv.1 = k := hp kv hpkv
      have hrest : rest.filter p = [] := by
        rw [List.filter_eq_nil_iff]
        intro a ha hpa
        exact h.1 (by
          rw [hk, ← hp a hpa]
          exact List.mem_map_of_mem Prod.fst ha)
      simp [hrest]
    · exact ih h.2

theorem missRiskCount_le_one (outputs : List (String × PyVal))
    (h : (outputs.map Prod.fst).Nodup) : missRiskCount outputs ≤ 1 := by
  refine filter_key_length_le_one outputs "risk" _ ?_ h
  intro kv hkv
  have := (Bool.and_eq_true _ _).mp hkv
  exact eq_of_beq this.1

theorem missCompCount_le_one (outputs : List (String × PyVal))
    (h : (outputs.map Prod.fst).Nodup) : missCompCount outputs ≤ 1 := by
  refine filter_key_length_le_one outputs "compliance" _ ?_ h
  intro kv hkv
  have := (Bool.and_eq_true _ _).mp hkv
  exact eq_of_beq this.1

/-- C5: under distinct stage keys the quality check's confidence is exactly
max(0.5, 0.95 − 0.10·(number of stage results with an embedded error) − 0.05
if the risk stage lacks a risk score − 0.05 if the compliance stage lacks a
status), `passed` holds iff the issue list is empty, and in particular with no
errors and both critical fields present the confidence is 0.95 and the check
passes. -/
theorem quality_check_confidence_formula (outputs : List (String × PyVal))
    (h : (outputs.map Prod.fst).Nodup) :
    (qualityCheck outputs).confidence_score =
      max (19 / 20 - (errCount outputs : ℚ) / 10
        - (if missRiskCount outputs = 0 then 0 else 1 / 20)
        - (if missCompCount outputs = 0 then 0 else 1 / 20)) (1 / 2) ∧
    ((qualityCheck outputs).passed = true ↔
      (qualityCheck outputs).issues = []) ∧
    (errCount outputs = 0 → missRiskCount outputs = 0 →
      missCompCount outputs = 0 →
      (qualityCheck outputs).confidence_score = 19 / 20 ∧
      (qualityCheck outputs).passed = true) := by
  refine ⟨?_, qualityCheck_passed_iff outputs, ?_⟩
  · rw [qualityCheck_confidence]
    have hR : (missRiskCount outputs : ℚ) / 20 =
        (if missRiskCount outputs = 0 then 0 else 1 / 20) := by
      rcases Nat.le_one_iff_eq_zero_or_eq_one.mp
        (missRiskCount_le_one outputs h) with h0 | h1
      · rw [h0]; norm_num
      · rw [h1]; norm_num
    have hC : (missCompCount outputs : ℚ) / 20 =
        (if missCompCount outputs = 0 then 0 else 1 / 20) := by
      rcases Nat.le_one_iff_eq_zero_or_eq_one.mp
        (missCompCount_le_one outputs h) with h0 | h1
      · rw [h0]; norm_num
      · rw [h1]; norm_num
    rw [hR, hC]
    ring_nf
  · intro hE hR hC
    have hiss : (qualityCheck outputs).issues = [] := by
      rw [qualityCheck_issues]
      have hlen := issuesOf_length outputs
      rw [hE, hR, hC] at hlen
      exact List.length_eq_zero.mp hlen
    refine ⟨?_, (qualityCheck_passed_iff outputs).mpr hiss⟩
    rw [qualityCheck_confidence, hE, hR, hC]
    norm_num

/-- A clean workflow context: both critical stages present with their
critical fields, no embedded errors. -/
def qcCleanOutputs : List (String × PyVal) :=
  [("risk", .dict [("risk_score", .num 5), ("risk_level", .str "MEDIUM")]),
   ("compliance", .dict [("compliance_status", .str "compliant")])]

theorem quality_check_confidence_formula_witness :
    (qualityCheck qcCleanOutputs).confidence_score = 19 / 20 ∧
    (qualityCheck qcCleanOutputs).passed = true :=
  (quality_check_confidence_formula qcCleanOutputs (by decide)).2.2
    (by decide) (by decide) (by decide)

/-! ## Fallback Data Provider (`_get_mock_*_data`, src/main.py lines 216–250,
392–409, 470–480).  The `datetime.now().isoformat()` reads inside the payloads
are modelled by the parameter `t`: the wall-clock time of the call. -/

/-- `_get_mock_extraction_data` at clock time `t`. -/
def mockExtractionData (t : String) : PyVal :=
  .dict [
    ("financial_statements", .dict [
      ("income", .dict [
        ("revenue", .num 10500000), ("cost_of_goods", .num 4200000),
        ("gross_profit", .num 6300000), ("operating_expenses", .num 2800000),
        ("operating_income", .num 3500000), ("net_income", .num 2600000)]),
      ("balance", .dict [
        ("assets", .num 15200000), ("liabilities", .num 7000000),
        ("equity", .num 8200000), ("cash", .num 2500000),
        ("receivables", .num 1800000), ("inventory", .num 1200000)])]),
    ("disclosures", .list [
      .str "Note 1: Accounting Policies - Company uses accrual accounting",
      .str "Note 2: Revenue Recognition - Recognized upon delivery",
      .str "Note 3: Risk Factors - Market competition and regulatory changes"]),
    ("metadata", .dict [
      ("pages", .num 45), ("language", .str "en"),
      ("processed_date", .str t)]),
    ("extraction_confidence", .num (92 / 100)),
    ("deepseek_insights", .str "Company shows strong revenue growth with healthy margins. Risk factors include market competition."),
    ("extraction_timestamp", .str t)]

/-- `_get_mock_compliance_data` at clock time `t`. -/
def mockComplianceData (t : String) : PyVal :=
  .dict [
    ("compliance_status", .str "compliant"),
    ("violations", .list []),
    ("warnings", .list [
      .str "Revenue recognition disclosure could be more detailed",
      .str "Risk factors section could be expanded"]),
    ("recommendations", .list [
      .str "Enhance revenue recognition policies in notes",
      .str "Add more detail to market risk factors",
      .str "Consider adding segment reporting"]),
    ("compliance_score", .num (92 / 100)),
    ("regulations_checked", .list [.str "SEC", .str "SOX", .str "IFRS"]),
    ("timestamp", .str t)]

/-- `_get_mock_market_data` at clock time `t`. -/
def mockMarketData (t : String) : PyVal :=
  .dict [
    ("market_data", .dict [
      ("sentiment", .str "bullish"),
      ("sector_data", .dict [
        ("sector", .str "Technology"), ("avg_pe", .num (225 / 10)),
        ("sector_growth", .num (15 / 100))]),
      ("competitors", .list [.dict [
        ("name", .str "Competitor A"), ("market_share", .num (25 / 100))]])]),
    ("deepseek_analysis", .str "Technology sector showing strong growth with positive sentiment. Company well-positioned in competitive landscape."),
    ("market_timestamp", .str t)]

/-- Drop the given top-level keys of a dict payload. -/
def removeKeys (p : PyVal) (ks : List String) : PyVal :=
  match p with
  | .dict es => .dict (es.filter (fun kv => !(ks.contains kv.1)))
  | v => v

/-- C8 counterexample: two calls of the compliance fallback at different clock
times return different payloads (the timestamp field differs), so the
provider is not deterministic across calls, field for field. -/
theorem fallback_two_calls_differ :
    mockComplianceData "2025-01-01T00:00:00" ≠
      mockComplianceData "2025-01-01T00:00:05" := by
  intro h
  have h2 : pvGet (mockComplianceData "2025-01-01T00:00:00") "timestamp" =
      pvGet (mockComplianceData "2025-01-01T00:00:05") "timestamp" := by
    rw [h]
  have e1 : pvGet (mockComplianceData "2025-01-01T00:00:00") "timestamp" =
      some (.str "2025-01-01T00:00:00") := rfl
  have e2 : pvGet (mockComplianceData "2025-01-01T00:00:05") "timestamp" =
      some (.str "2025-01-01T00:00:05") := rfl
  rw [e1, e2] at h2
  injection h2 with h3
  injection h3 with h4
  exact absurd h4 (by decide)

/-- C8 amended: each fallback payload is pure and deterministic except for its
timestamp fields, which record the wall-clock call time: two calls at any
clock times agree on every non-timestamp field (for the extraction payload,
on everything outside `extraction_timestamp` and `metadata`, and inside
`metadata` on everything but `processed_date`). -/
theorem fallback_deterministic_except_timestamps (t1 t2 : String) :
    removeKeys (mockExtractionData t1) ["extraction_timestamp", "metadata"] =
      removeKeys (mockExtractionData t2)
        ["extraction_timestamp", "metadata"] ∧
    (pvGet (mockExtractionData t1) "metadata").map
        (fun m => removeKeys m ["processed_date"]) =
      (pvGet (mockExtractionData t2) "metadata").map
        (fun m => removeKeys m ["processed_date"]) ∧
    removeKeys (mockComplianceData t1) ["timestamp"] =
      removeKeys (mockComplianceData t2) ["timestamp"] ∧
    removeKeys (mockMarketData t1) ["market_timestamp"] =
      removeKeys (mockMarketData t2) ["market_timestamp"] :=
  ⟨rfl, rfl, rfl, rfl⟩

/-! ## Designed execution paths of the risk and compliance stages (C10) -/

/-- The designed outcomes of `_assess_risks`: the success path (score computed
from the extracted signals, assessment text `a`, timestamp `t`) or the
caught-exception path (lines 580–588). -/
inductive RiskPath where
  | success (i : RiskInput) (a : String) (t : String)
  | failure (msg : String)

/-- The result dict `_assess_risks` returns on each designed path. -/
def riskStageResult : RiskPath → PyVal
  | .success i a t => .dict [
      ("risk_score", .num (riskScore i)),
      ("risk_level", .str (riskLevel (riskScore i))),
      ("deepseek_assessment", .str a),
      ("risk_factors", .dict [
        ("compliance_issues", .num (i.violations : ℚ)),
        ("warnings_count", .num (i.warnings : ℚ)),
        ("financial_leverage", .num i.debt_to_equity),
        ("profitability", .num i.net_margin),
        ("market_sentiment", .str i.sentiment)]),
      ("assessment_timestamp", .str t)]
  | .failure msg => .dict [
      ("risk_score", .num 5),
      ("risk_level", .str "MEDIUM"),
      ("deepseek_assessment", .str ("Risk assessment error: " ++ msg)),
      ("risk_factors", .dict []),
      ("error", .str msg)]

/-- The designed outcomes of `_check_compliance`: the success path (fields
copied from the MCP response with their defaults) or the fallback path (the
MCP reported an error status, or an exception was caught — both return the
mock payload at clock time `t`). -/
inductive CompliancePath where
  | success (status : String) (violations warnings recommendations : List String)
      (score : ℚ) (regs : List String) (t : String)
  | fallback (t : String)

/-- The result dict `_check_compliance` returns on each designed path. -/
def complianceStageResult : CompliancePath → PyVal
  | .success status violations warnings recommendations score regs t => .dict [
      ("compliance_status", .str status),
      ("violations", .list (violations.map PyVal.str)),
      ("warnings", .list (warnings.map PyVal.str)),
      ("recommendations", .list (recommendations.map PyVal.str)),
      ("compliance_score", .num score),
      ("regulations_checked", .list (regs.map PyVal.str)),
      ("timestamp", .str t)]
  | .fallback t => mockComplianceData t

theorem riskStageResult_hasKey_score (p : RiskPath) :
    pvHasKey (riskStageResult p) "risk_score" = true := by
  cases p <;> rfl

theorem riskStageResult_hasKey_level (p : RiskPath) :
    pvHasKey (riskStageResult p) "risk_level" = true := by
  cases p <;> rfl

theorem complianceStageResult_hasKey_status (p : CompliancePath) :
    pvHasKey (complianceStageResult p) "compliance_status" = true := by
  cases p <;> rfl

/-- C10: on every designed path the risk stage's result contains the
`risk_score` and `risk_level` fields and the compliance stage's result
contains `compliance_status`; consequently, in any workflow context whose
`risk`/`compliance` entries are stage outputs produced by the pipeline
itself, the quality check's missing-field deductions never fire and its
confidence deductions come only from embedded error markers. -/
theorem risk_compliance_fields_always_present (rp : RiskPath)
    (cp : CompliancePath) (outputs : List (String × PyVal))
    (hr : ∀ v, ("risk", v) ∈ outputs → ∃ p, v = riskStageResult p)
    (hc : ∀ v, ("compliance", v) ∈ outputs →
      ∃ p, v = complianceStageResult p) :
    pvHasKey (riskStageResult rp) "risk_score" = true ∧
    pvHasKey (riskStageResult rp) "risk_level" = true ∧
    pvHasKey (complianceStageResult cp) "compliance_status" = true ∧
    missRiskCount outputs = 0 ∧
    missCompCount outputs = 0 ∧
    (qualityCheck outputs).confidence_score =
      max (19 / 20 - (errCount outputs : ℚ) / 10) (1 / 2) := by
  have hmr : missRiskCount outputs = 0 := by
    unfold missRiskCount
    rw [List.length_eq_zero, List.filter_eq_nil_iff]
    intro kv hkv hpred
    have h1 := (Bool.and_eq_true _ _).mp hpred
    have hk : kv.1 = "risk" := eq_of_beq h1.1
    have hmem : ("risk", kv.2) ∈ outputs := by
      rw [← hk]
      exact hkv
    obtain ⟨p, hp⟩ := hr kv.2 hmem
    have h2 := (Bool.and_eq_true _ _).mp h1.2
    rw [hp, riskStageResult_hasKey_score] at h2
    exact absurd h2.2 (by decide)
  have hmc : missCompCount outputs = 0 := by
    unfold missCompCount
    rw [List.length_eq_zero, List.filter_eq_nil_iff]
    intro kv hkv hpred
    have h1 := (Bool.and_eq_true _ _).mp hpred
    have hk : kv.1 = "compliance" := eq_of_beq h1.1
    have hmem : ("compliance", kv.2) ∈ outputs := by
      rw [← hk]
      exact hkv
    obtain ⟨p, hp⟩ := hc kv.2 hmem
    have h2 := (Bool.and_eq_true _ _).mp h1.2
    rw [hp, complianceStageResult_hasKey_status] at h2
    exact absurd h2.2 (by decide)
  refine ⟨riskStageResult_hasKey_score rp, riskStageResult_hasKey_level rp,
    complianceStageResult_hasKey_status cp, hmr, hmc, ?_⟩
  rw [qualityCheck_confidence, hmr, hmc]
  norm_num

/-- A workflow context as the pipeline itself would assemble it: the risk
entry from the caught-exception path, the compliance entry from the fallback
path. -/
def pipelineLikeOutputs : List (String × PyVal) :=
  [("risk", riskStageResult (.failure "boom")),
   ("compliance", complianceStageResult (.fallback "2025-01-01T00:00:00"))]

theorem risk_compliance_fields_always_present_witness :
    missRiskCount pipelineLikeOutputs = 0 ∧
    missCompCount pipelineLikeOutputs = 0 ∧
    (qualityCheck pipelineLikeOutputs).confidence_score =
      max (19 / 20 - (errCount pipelineLikeOutputs : ℚ) / 10) (1 / 2) := by
  have h := risk_compliance_fields_always_present (.failure "boom")
    (.fallback "2025-01-01T00:00:00") pipelineLikeOutputs
    (by
      intro v hv
      simp only [pipelineLikeOutputs, List.mem_cons, List.mem_singleton,
        List.not_mem_nil, or_false] at hv
      rcases hv with h1 | h1
      · exact ⟨.failure "boom", (Prod.mk.injEq _ _ _ _ ▸ h1).2⟩
      · have h2 : ("risk" : String) = "compliance" := congrArg Prod.fst h1
        exact absurd h2 (by decide))
    (by
      intro v hv
      simp only [pipelineLikeOutputs, List.mem_cons, List.mem_singleton,
        List.not_mem_nil, or_false] at hv
      rcases hv with h1 | h1
      · have h2 : ("compliance" : String) = "risk" := congrArg Prod.fst h1
        exact absurd h2 (by decide)
      · exact ⟨.fallback "2025-01-01T00:00:00",
          (Prod.mk.injEq _ _ _ _ ▸ h1).2⟩)
  exact ⟨h.2.2.2.1, h.2.2.2.2.1, h.2.2.2.2.2⟩

/-! ## Remote Tool Invoker (`call_mcp_tool`, src/main.py lines 143–153) -/

/-- The fixed registered set of MCP client names (`_init_mcp_clients`). -/
def mcpClientNames : List String :=
  ["document", "compliance", "market", "reporting"]

/-- `call_mcp_tool`: looks the client up in the registered set, then performs
the remote call; `callOutcome` is the behaviour of the underlying
`client.call_tool` at this invocation (`.ok payload` or `.error message` for a
raised exception).  Returns the result dict together with a flag recording
whether the remote call was attempted.  The function is total: no exception
escapes. -/
def call_mcp_tool (client_name tool_name : String)
    (callOutcome : Except String PyVal) : PyVal × Bool :=
  if mcpClientNames.contains client_name then
    match callOutcome with
    | .ok v => (v, true)
    | .error e => (.dict [("status", .str "error"), ("error", .str e)], true)
  else
    (.dict [("status", .str "error"),
            ("error", .str ("Unknown client: " ++ client_name))], false)

/-- C9: the invoker never raises past its boundary — it is a total function of
the call outcome.  An unknown service name yields a tagged error result naming
the unknown client, with no remote call attempted; when the underlying call of
a registered client raises, the exception is caught and converted into a
tagged error result carrying the message; a successful call's payload is
passed through. -/
theorem call_mcp_tool_never_raises (client_name tool_name : String)
    (outcome : Except String PyVal) :
    (mcpClientNames.contains client_name = false →
      call_mcp_tool client_name tool_name outcome =
        (.dict [("status", .str "error"),
                ("error", .str ("Unknown client: " ++ client_name))],
          false)) ∧
    (∀ e, mcpClientNames.contains client_name = true → outcome = .error e →
      call_mcp_tool client_name tool_name outcome =
        (.dict [("status", .str "error"), ("error", .str e)], true)) ∧
    (∀ v, mcpClientNames.contains client_name = true → outcome = .ok v →
      call_mcp_tool client_name tool_name outcome = (v, true)) := by
  refine ⟨?_, ?_, ?_⟩
  · intro h
    unfold call_mcp_tool
    rw [h]
    simp
  · intro e h he
    unfold call_mcp_tool
    rw [h, he]
    simp
  · intro v h hv
    unfold call_mcp_tool
    rw [h, hv]
    simp

theorem call_mcp_tool_never_raises_witness :
    call_mcp_tool "unknown" "extract_financial_data" (.ok (.str "ignored")) =
      (.dict [("status", .str "error"),
              ("error", .str "Unknown client: unknown")], false) ∧
    call_mcp_tool "document" "extract_financial_data"
        (.error "Connection refused") =
      (.dict [("status", .str "error"),
              ("error", .str "Connection refused")], true) :=
  ⟨(call_mcp_tool_never_raises "unknown" "extract_financial_data"
      (.ok (.str "ignored"))).1 (by decide),
   (call_mcp_tool_never_raises "document" "extract_financial_data"
      (.error "Connection refused")).2.1 "Connection refused"
      (by decide) rfl⟩

/-! ## Pipeline Controller (`execute_workflow`, src/main.py lines 742–842) -/

/-- The behaviour of one stage call at a given run: it returns a result value
(success, or an internally handled error turned into a fallback/embedded-error
payload — both are ordinary return values) or an exception escapes its own
error handling. -/
inductive StageOutcome where
  | ok (v : PyVal)
  | exn (msg : String)

/-- Whether the outcome is an escaping exception. -/
def StageOutcome.isExn : StageOutcome → Bool
  | .ok _ => false
  | .exn _ => true

/-- The returned value of a non-escaping outcome. -/
def StageOutcome.payload : StageOutcome → PyVal
  | .ok v => v
  | .exn _ => .str ""

/-- The workflow envelope `execute_workflow` returns: overall status, the
per-stage results accumulated so far (`workflow_results`, the failure
envelope's `partial_results`), the per-stage status map, and the escaped error
message, if any. -/
structure Envelope where
  status : String
  results : List (String × PyVal)
  workflow_status : List (String × String)
  error : Option String

/-- The `try` block of `execute_workflow`: run the stages in order,
accumulating `workflow_results` and `workflow_status`; the first escaping
exception aborts into the `except` clause, which returns the failure envelope
with the partial results; otherwise the success envelope carries all
results. -/
def runStages : List (String × StageOutcome) → List (String × PyVal) →
    List (String × String) → Envelope
  | [], res, st =>
      { status := "completed", results := res, workflow_status := st,
        error := none }
  | (name, .ok v) :: rest, res, st =>
      runStages rest (res ++ [(name, v)]) (st ++ [(name, "completed")])
  | (_, .exn msg) :: _, res, st =>
      { status := "failed", results := res, workflow_status := st,
        error := some msg }

/-- The seven stages of `execute_workflow` in their fixed order, keyed as in
`workflow_results`. -/
def workflowStages (extraction financial_analysis compliance market risk
    quality report : StageOutcome) : List (String × StageOutcome) :=
  [("extraction", extraction), ("financial_analysis", financial_analysis),
   ("compliance", compliance), ("market", market), ("risk", risk),
   ("quality", quality), ("report", report)]

/-- `execute_workflow`, as a function of the seven per-stage behaviours of
this run. -/
def execute_workflow (extraction financial_analysis compliance market risk
    quality report : StageOutcome) : Envelope :=
  runStages (workflowStages extraction financial_analysis compliance market
    risk quality report) [] []

theorem runStages_status_failed_iff (stages : List (String × StageOutcome)) :
    ∀ res st, (runStages stages res st).status = "failed" ↔
      ∃ p ∈ stages, p.2.isExn = true := by
  induction stages with
  | nil =>
    intro res st
    simp [runStages]
  | cons head tail ih =>
    intro res st
    obtain ⟨name, outcome⟩ := head
    cases outcome with
    | ok v =>
      rw [runStages, ih]
      simp [StageOutcome.isExn]
    | exn msg =>
      simp [runStages, StageOutcome.isExn]

theorem runStages_all_ok (stages : List (String × StageOutcome)) :
    ∀ res st, (∀ p ∈ stages, p.2.isExn = false) →
      runStages stages res st =
        { status := "completed",
          results := res ++ stages.map (fun p => (p.1, p.2.payload)),
          workflow_status := st ++ stages.map (fun p => (p.1, "completed")),
          error := none } := by
  induction stages with
  | nil =>
    intro res st _
    simp [runStages]
  | cons head tail ih =>
    intro res st h
    obtain ⟨name, outcome⟩ := head
    cases outcome with
    | ok v =>
      rw [runStages, ih _ _ (fun p hp => h p (List.mem_cons_of_mem _ hp))]
      simp [StageOutcome.payload]
    | exn msg =>
      exact absurd (h (name, .exn msg) (List.mem_cons_self _ _))
        (by simp [StageOutcome.isExn])

theorem runStages_first_exn (pre : List (String × StageOutcome))
    (name msg : String) (post : List (String × StageOutcome)) :
    ∀ res st, (∀ p ∈ pre, p.2.isExn = false) →
      runStages (pre ++ (name, StageOutcome.exn msg) :: post) res st =
        { status := "failed",
          results := res ++ pre.map (fun p => (p.1, p.2.payload)),
          workflow_status := st ++ pre.map (fun p => (p.1, "completed")),
          error := some msg } := by
  induction pre with
  | nil =>
    intro res st _
    simp [runStages]
  | cons head tail ih =>
    intro res st h
    obtain ⟨n, outcome⟩ := head
    cases outcome with
    | ok v =>
      rw [List.cons_append, runStages,
        ih _ _ (fun p hp => h p (List.mem_cons_of_mem _ hp))]
      simp [StageOutcome.payload]
    | exn m =>
      exact absurd (h (n, .exn m) (List.mem_cons_self _ _))
        (by simp [StageOutcome.isExn])

/-- C1: the envelope's status is "failed" exactly when some stage's outcome is
an exception escaping that stage's own error handling; when every stage
returns (including collaborator errors, computation errors, and
internally-handled errors, which are ordinary return values), the pipeline
runs through all seven stages and the envelope is "completed" with all seven
results; and a failure envelope preserves, in order, the results of every
stage that completed before the escape. -/
theorem workflow_failed_only_on_escaped_exception
    (extraction financial_analysis compliance market risk quality report :
      StageOutcome) :
    ((execute_workflow extraction financial_analysis compliance market risk
        quality report).status = "failed" ↔
      ∃ p ∈ workflowStages extraction financial_analysis compliance market
        risk quality report, p.2.isExn = true) ∧
    ((∀ p ∈ workflowStages extraction financial_analysis compliance market
        risk quality report, p.2.isExn = false) →
      (execute_workflow extraction financial_analysis compliance market risk
        quality report).status = "completed" ∧
      (execute_workflow extraction financial_analysis compliance market risk
        quality report).results =
        (workflowStages extraction financial_analysis compliance market risk
          quality report).map (fun p => (p.1, p.2.payload))) ∧
    (∀ pre name msg post,
      workflowStages extraction financial_analysis compliance market risk
        quality report = pre ++ (name, StageOutcome.exn msg) :: post →
      (∀ p ∈ pre, p.2.isExn = false) →
      (execute_workflow extraction financial_analysis compliance market risk
        quality report).status = "failed" ∧
      (execute_workflow extraction financial_analysis compliance market risk
        quality report).results =
        pre.map (fun p => (p.1, p.2.payload))) := by
  refine ⟨?_, ?_, ?_⟩
  · exact runStages_status_failed_iff _ [] []
  · intro h
    rw [execute_workflow, runStages_all_ok _ [] [] h]
    simp
  · intro pre name msg post hdec h
    rw [execute_workflow, hdec, runStages_first_exn pre name msg post [] [] h]
    simp

/-- A payload standing in for an arbitrary successful stage result. -/
def okStage : StageOutcome := .ok (.str "stage result")

theorem workflow_failed_only_on_escaped_exception_witness :
    ((execute_workflow okStage okStage okStage okStage okStage okStage
        okStage).status = "completed") ∧
    ((execute_workflow okStage okStage (.exn "boom") okStage okStage okStage
        okStage).status = "failed") ∧
    ((execute_workflow okStage okStage (.exn "boom") okStage okStage okStage
        okStage).results =
      [("extraction", .str "stage result"),
       ("financial_analysis", .str "stage result")]) := by
  have h1 := (workflow_failed_only_on_escaped_exception okStage okStage
    okStage okStage okStage okStage okStage).2.1 (by decide)
  have h2 := (workflow_failed_only_on_escaped_exception okStage okStage
    (.exn "boom") okStage okStage okStage okStage).2.2
    [("extraction", okStage), ("financial_analysis", okStage)] "compliance"
    "boom" [("market", okStage), ("risk", okStage), ("quality", okStage),
      ("report", okStage)] rfl (by decide)
  exact ⟨h1.1, h2.1, h2.2⟩

end FinMAS
